import Mathlib

/-!
# Verification of the bevy_ggrs rollback scheduling core

Shallow embedding of `src/ggrs_stage.rs` (the `GGRSStage` struct: fixed
timestep clock, snapshot ring buffer, save/load/advance command execution,
per-session-variant driving procedures) and
`src/snapshot/component_reflect.rs` (the reflect-based per-component
snapshot save/load systems).

Conventions:
* Rust `i32` frames are Lean `Int`; the `frame as usize` cast is
  `i32_as_usize` (two's complement reinterpretation on 64 bits).
* `Duration` / `f64` clock arithmetic is embedded over `ℚ` (exact
  arithmetic; the loop structure — strict `>` comparison, subtraction of
  one threshold per emitted step — is taken verbatim from the source).
* Rust panics (`assert_eq!`, remainder by zero, `Option::unwrap` /
  `Result::unwrap`) are `Option.none`.
-/

namespace BevyGgrs

/-! ## Frame clock (src/ggrs_stage.rs, `GGRSStage::run`, lines 38-76) -/

/-- The step threshold of the clock loop:
`let mut fps_delta = 1. / self.update_frequency as f64;
 if self.run_slow { fps_delta *= 1.1; }` (lines 45-48). -/
def fps_delta (update_frequency : Nat) (run_slow : Bool) : ℚ :=
  let d : ℚ := 1 / update_frequency
  if run_slow then d * 1.1 else d

theorem fps_delta_pos (update_frequency : Nat) (run_slow : Bool)
    (h : 0 < update_frequency) : 0 < fps_delta update_frequency run_slow := by
  unfold fps_delta
  have : (0 : ℚ) < (update_frequency : ℚ) := by exact_mod_cast h
  cases run_slow <;> simp <;> positivity

/-- The catch-up loop of `GGRSStage::run` (lines 61-75):
`while self.accumulator.as_secs_f64() > fps_delta { accumulator -= fps_delta; ...step... }`.
Returns the number of emitted step signals and the residual accumulator. -/
def run_steps (delta : ℚ) (hd : 0 < delta) (acc : ℚ) : Nat × ℚ :=
  if h : delta < acc then
    let r := run_steps delta hd (acc - delta)
    (r.1 + 1, r.2)
  else
    (0, acc)
  termination_by (⌈acc / delta⌉).toNat
  decreasing_by
    have h1 : (1 : ℚ) < acc / delta := (one_lt_div hd).mpr h
    have h2 : (acc - delta) / delta = acc / delta - 1 := by
      field_simp
    have h3 : ⌈(acc - delta) / delta⌉ = ⌈acc / delta⌉ - 1 := by
      rw [h2, Int.ceil_sub_one]
    have h4 : (1 : ℤ) < ⌈acc / delta⌉ := by
      exact_mod_cast Int.lt_ceil.mpr (by exact_mod_cast h1)
    omega

theorem run_steps_zero (delta : ℚ) (hd : 0 < delta) (acc : ℚ) (h : ¬ delta < acc) :
    run_steps delta hd acc = (0, acc) := by
  unfold run_steps
  simp [h]

theorem run_steps_succ (delta : ℚ) (hd : 0 < delta) (acc : ℚ) (h : delta < acc) :
    run_steps delta hd acc =
      ((run_steps delta hd (acc - delta)).1 + 1, (run_steps delta hd (acc - delta)).2) := by
  rw [run_steps]
  simp [h]

theorem run_steps_fst_eq (delta : ℚ) (hd : 0 < delta) (acc : ℚ) :
    (run_steps delta hd acc).1 = (⌈acc / delta⌉ - 1).toNat := by
  induction acc using run_steps.induct delta hd with
  | case1 acc h ih =>
    rw [run_steps_succ delta hd acc h]
    have h1 : (1 : ℚ) < acc / delta := (one_lt_div hd).mpr h
    have h2 : (acc - delta) / delta = acc / delta - 1 := by field_simp
    have h3 : ⌈(acc - delta) / delta⌉ = ⌈acc / delta⌉ - 1 := by
      rw [h2, Int.ceil_sub_one]
    have h4 : (1 : ℤ) < ⌈acc / delta⌉ := Int.lt_ceil.mpr (by exact_mod_cast h1)
    simp only [ih, h3]
    omega
  | case2 acc h =>
    rw [run_steps_zero delta hd acc h]
    have h1 : acc / delta ≤ 1 := by
      rw [div_le_one hd]
      exact le_of_not_lt h
    have h2 : ⌈acc / delta⌉ ≤ 1 := Int.ceil_le.mpr (by exact_mod_cast h1)
    omega

theorem run_steps_snd_eq (delta : ℚ) (hd : 0 < delta) (acc : ℚ) :
    (run_steps delta hd acc).2 = acc - delta * (run_steps delta hd acc).1 := by
  induction acc using run_steps.induct delta hd with
  | case1 acc h ih =>
    rw [run_steps_succ delta hd acc h] at *
    simp only at ih ⊢
    rw [ih]
    push_cast
    ring
  | case2 acc h =>
    rw [run_steps_zero delta hd acc h]
    simp

/-- C5 counterexample: with update rate `R = 1` and bias clear the step
threshold is exactly 1 second, and with an accumulated wall-clock gap of
exactly `1 / R = 1` second (`n = 1`) the clock loop emits `0` step signals
(the loop condition `accumulator > fps_delta` is strictly greater-than, and
`1 > 1` is false) and leaves a residual accumulator of a full second — the
claim predicts exactly `1` signal and a residual of about zero. -/
theorem clock_catchup_counterexample :
    (run_steps (fps_delta 1 false) (fps_delta_pos 1 false one_pos) ((1 : ℚ) / 1)).1 = 0
    ∧ (run_steps (fps_delta 1 false) (fps_delta_pos 1 false one_pos) ((1 : ℚ) / 1)).2 = 1 := by
  have hd : fps_delta 1 false = 1 := by norm_num [fps_delta]
  refine ⟨?_, ?_⟩
  · rw [run_steps_fst_eq, hd]
    norm_num
  · rw [run_steps_snd_eq, run_steps_fst_eq, hd]
    norm_num

/-- C5 (amended): for update rate `R > 0`, bias flag clear, and an
accumulated wall-clock gap of exactly `n / R` seconds with `n ≥ 1`, one poll
of the clock loop emits exactly `n - 1` step signals and leaves a residual
accumulator of exactly one step threshold (`1 / R` seconds), because the
loop runs only while the accumulator is strictly greater than the
threshold. -/
theorem clock_catchup (R n : Nat) (hR : 0 < R) (hn : 1 ≤ n) :
    run_steps (fps_delta R false) (fps_delta_pos R false hR) ((n : ℚ) / R)
      = (n - 1, fps_delta R false) := by
  have hdpos := fps_delta_pos R false hR
  have hd : fps_delta R false = 1 / (R : ℚ) := by simp [fps_delta]
  have hRQ : (0 : ℚ) < (R : ℚ) := by exact_mod_cast hR
  have hacc : (n : ℚ) / R = (n : ℚ) * fps_delta R false := by
    rw [hd]
    field_simp
  have h1 : (run_steps (fps_delta R false) hdpos ((n : ℚ) / R)).1 = n - 1 := by
    rw [run_steps_fst_eq, hacc, mul_div_assoc, div_self (ne_of_gt hdpos), mul_one,
      Int.ceil_natCast]
    omega
  have h2 : (run_steps (fps_delta R false) hdpos ((n : ℚ) / R)).2 = fps_delta R false := by
    rw [run_steps_snd_eq, h1, hacc]
    have hcast : ((n - 1 : Nat) : ℚ) = (n : ℚ) - 1 := by
      push_cast [hn]
      ring
    rw [hcast]
    ring
  exact Prod.ext_iff.mpr ⟨h1, h2⟩

/-- Witness for `clock_catchup` at `R = 1`, `n = 2`: a 2-second gap at
rate 1 emits exactly one step signal and leaves one threshold behind. -/
theorem clock_catchup_witness :
    run_steps (fps_delta 1 false) (fps_delta_pos 1 false (by decide)) ((2 : ℚ) / 1)
      = (1, fps_delta 1 false) :=
  clock_catchup 1 2 (by decide) (by decide)

/-- C6: the step threshold with the `run_slow` bias flag set is exactly
`1.1` times the threshold with it clear, and over the same (nonnegative)
accumulated wall-clock time and the same update rate the clock loop emits
no more step signals with the flag set than with it clear. -/
theorem bias_damping (R : Nat) (hR : 0 < R) (acc : ℚ) (hacc : 0 ≤ acc) :
    fps_delta R true = 1.1 * fps_delta R false
    ∧ (run_steps (fps_delta R true) (fps_delta_pos R true hR) acc).1
        ≤ (run_steps (fps_delta R false) (fps_delta_pos R false hR) acc).1 := by
  have hfast := fps_delta_pos R false hR
  have hslow := fps_delta_pos R true hR
  have hle : fps_delta R false ≤ fps_delta R true := by
    have h0 : (0 : ℚ) ≤ ((R : ℚ))⁻¹ := by positivity
    simp only [fps_delta]
    norm_num
    linarith
  refine ⟨?_, ?_⟩
  · simp only [fps_delta]
    norm_num
    ring
  · rw [run_steps_fst_eq, run_steps_fst_eq]
    have hdiv : acc / fps_delta R true ≤ acc / fps_delta R false := by
      gcongr
    have hceil : ⌈acc / fps_delta R true⌉ ≤ ⌈acc / fps_delta R false⌉ :=
      Int.ceil_le_ceil hdiv
    omega

/-- Witness for `bias_damping` at `R = 60` and a one-second gap. -/
theorem bias_damping_witness :
    fps_delta 60 true = 1.1 * fps_delta 60 false
    ∧ (run_steps (fps_delta 60 true) (fps_delta_pos 60 true (by decide)) 1).1
        ≤ (run_steps (fps_delta 60 false) (fps_delta_pos 60 false (by decide)) 1).1 :=
  bias_damping 60 (by decide) 1 (by norm_num)

/-! ## Stage state (src/ggrs_stage.rs, `GGRSStage` struct, lines 13-35) -/

/-- `frame as usize` for a Rust `i32` frame on a 64-bit target: sign-extend
and reinterpret, i.e. reduce modulo `2 ^ 64` (for `0 ≤ frame` this is just
`frame.toNat`). -/
def i32_as_usize (frame : Int) : Nat := (frame % (2 : Int) ^ 64).toNat

/-- The fields of `GGRSStage` the save/load/advance operations and the
per-variant driving procedures touch. `σ` is the `WorldSnapshot` type
(treated opaquely: it is produced by `WorldSnapshot::from_world` and
consumed by `WorldSnapshot::write_to_world`, neither of which lives in
`src/`). -/
structure GGRSStage (σ : Type) where
  snapshots : List σ
  frame : Int
  update_frequency : Nat
  accumulator : ℚ
  run_slow : Bool

/-- The Bevy `World` as the scheduler sees it: the rollback-relevant
simulation state `state : υ` plus the optional `Vec<PlayerInput<T::Input>>`
resource (`inputs : Option ι`) that `advance_frame` inserts for the
duration of one schedule run. -/
structure SimWorld (ι υ : Type) where
  inputs : Option ι
  state : υ

/-- `GGRSStage::save_world` (lines 266-284). `fromWorld` stands for
`WorldSnapshot::from_world(world, &self.type_registry)`. The
`assert_eq!(self.frame, frame)` panic and the remainder-by-zero panic in
`frame as usize % self.snapshots.len()` (empty history) are `none`; the
panic happens before any slot is written. The GGRS-side `cell.save` stores
only the frame and a checksum, never world data, and is not modelled. -/
def save_world {σ ι υ : Type} (fromWorld : υ → σ) (st : GGRSStage σ)
    (frame : Int) (w : SimWorld ι υ) : Option (GGRSStage σ) :=
  if st.frame = frame then
    if 0 < st.snapshots.length then
      some { st with
        snapshots := st.snapshots.set
          (i32_as_usize frame % st.snapshots.length) (fromWorld w.state) }
    else none
  else none

/-- `GGRSStage::load_world` (lines 286-297). The cell's `GameState` carries
only the frame (`state.frame`, the argument `stateFrame`); `writeToWorld`
stands for `WorldSnapshot::write_to_world`. The counter is set to
`state.frame` first; then an empty history panics (`none`) on the
remainder by zero. -/
def load_world {σ ι υ : Type} (writeToWorld : σ → υ → υ) (st : GGRSStage σ)
    (stateFrame : Int) (w : SimWorld ι υ) : Option (GGRSStage σ × SimWorld ι υ) :=
  if h : 0 < st.snapshots.length then
    let snapshot_to_load :=
      st.snapshots.get ⟨i32_as_usize stateFrame % st.snapshots.length, Nat.mod_lt _ h⟩
    some ({ st with frame := stateFrame },
      { w with state := writeToWorld snapshot_to_load w.state })
  else none

/-- `GGRSStage::advance_frame` (lines 299-304): insert the inputs resource,
run the rollback schedule once, remove the resource, increment the frame
counter. -/
def advance_frame {σ ι υ : Type} (schedule : SimWorld ι υ → SimWorld ι υ)
    (st : GGRSStage σ) (inputs : ι) (w : SimWorld ι υ) :
    GGRSStage σ × SimWorld ι υ :=
  let w1 := { w with inputs := some inputs }
  let w2 := schedule w1
  let w3 := { w2 with inputs := none }
  ({ st with frame := st.frame + 1 }, w3)

/-- The ring-buffer slot `save_world` writes and `load_world` reads for a
frame: `self.snapshots[frame as usize % self.snapshots.len()]`
(lines 282-283 and 292-293). -/
def snapshot_for {σ : Type} (st : GGRSStage σ) (frame : Int) : Option σ :=
  st.snapshots[i32_as_usize frame % st.snapshots.length]?

/-- C3: invoking `save_world` with a target frame different from the
current frame counter fails the `assert_eq!(self.frame, frame)`
consistency check — a panic raised before anything is written, so the
snapshot history is untouched — and with a matching target frame (and a
non-empty history) it stores the captured snapshot at slot
`frame mod capacity`. -/
theorem save_world_consistency_check {σ ι υ : Type} (fromWorld : υ → σ)
    (st : GGRSStage σ) (frame : Int) (w : SimWorld ι υ)
    (hlen : 0 < st.snapshots.length) :
    (st.frame ≠ frame → save_world fromWorld st frame w = none)
    ∧ (st.frame = frame →
        save_world fromWorld st frame w = some { st with
          snapshots := st.snapshots.set
            (i32_as_usize frame % st.snapshots.length) (fromWorld w.state) }) := by
  constructor
  · intro hne
    simp [save_world, hne]
  · intro heq
    simp [save_world, heq, hlen]

/-- Witness for `save_world_consistency_check`: a one-slot history with
frame counter 3; saving for frame 5 fails, saving for frame 3 stores. -/
theorem save_world_consistency_check_witness :
    ((3 : Int) ≠ (5 : Int) →
      save_world (fun n => n)
        (GGRSStage.mk [0] 3 60 0 false) 5 (SimWorld.mk (ι := Nat) none 7) = none)
    ∧ ((3 : Int) = (5 : Int) →
      save_world (fun n => n)
        (GGRSStage.mk [0] 3 60 0 false) 5 (SimWorld.mk (ι := Nat) none 7)
        = some { GGRSStage.mk [0] 3 60 0 false with
            snapshots := (GGRSStage.mk [0] 3 60 0 false : GGRSStage Nat).snapshots.set
              (i32_as_usize 5 % (GGRSStage.mk [0] 3 60 0 false : GGRSStage Nat).snapshots.length) 7 }) :=
  save_world_consistency_check (fun n => n)
    (GGRSStage.mk [0] 3 60 0 false) 5 (SimWorld.mk none 7) (by decide)

/-- C4: `load_world` for target frame `X` sets the frame counter to `X`
unconditionally — for every prior counter value, including `X` strictly
below it — and reports no error (given a non-empty history, which is the
only way it can panic). -/
theorem load_world_sets_frame {σ ι υ : Type} (writeToWorld : σ → υ → υ)
    (st : GGRSStage σ) (x : Int) (w : SimWorld ι υ)
    (hlen : 0 < st.snapshots.length) :
    ∃ w', load_world writeToWorld st x w = some ({ st with frame := x }, w') := by
  refine ⟨{ w with
        state := writeToWorld
          (st.snapshots.get ⟨i32_as_usize x % st.snapshots.length, Nat.mod_lt _ hlen⟩)
          w.state },
    ?_⟩
  simp [load_world, hlen]

/-- Witness for `load_world_sets_frame`: rolling back from frame 3 to
frame 0 succeeds and sets the counter to 0. -/
theorem load_world_sets_frame_witness :
    ∃ w', load_world (fun s _ => s) (GGRSStage.mk [9] 3 60 0 false) 0
        (SimWorld.mk (ι := Nat) none 7)
      = some ({ GGRSStage.mk [9] 3 60 0 false with frame := 0 }, w') :=
  load_world_sets_frame (fun s _ => s) (GGRSStage.mk [9] 3 60 0 false) 0
    (SimWorld.mk none 7) (by decide)

/-- C7: `advance_frame` leaves the frame counter at its prior value plus
one; the participant-input resource is present exactly for the single
schedule run (the schedule observes `inputs = some inputs`, and the
resource is removed immediately after), so it is absent once the operation
returns. -/
theorem advance_frame_semantics {σ ι υ : Type}
    (schedule : SimWorld ι υ → SimWorld ι υ) (st : GGRSStage σ) (inputs : ι)
    (w : SimWorld ι υ) :
    (advance_frame schedule st inputs w).1.frame = st.frame + 1
    ∧ (advance_frame schedule st inputs w).2.inputs = none
    ∧ (advance_frame schedule st inputs w).2
        = { schedule { w with inputs := some inputs } with inputs := none }
    ∧ (advance_frame schedule st inputs w).1
        = { st with frame := st.frame + 1 } :=
  ⟨rfl, rfl, rfl, rfl⟩

/-- C9: both `save_world` and `load_world` compute their ring-buffer slot
as `frame as usize % self.snapshots.len()`; on an empty snapshot history
(before any session variant has initialized it) the remainder by zero
panics in both operations, and with at least one slot (and, for
`save_world`, the matching frame) both are total. -/
theorem history_nonempty_precondition {σ ι υ : Type} (fromWorld : υ → σ)
    (writeToWorld : σ → υ → υ) (st : GGRSStage σ) (frame : Int)
    (w : SimWorld ι υ) (hframe : st.frame = frame) :
    (st.snapshots = [] →
      save_world fromWorld st frame w = none
      ∧ load_world (ι := ι) writeToWorld st frame w = none)
    ∧ (0 < st.snapshots.length →
      (save_world fromWorld st frame w).isSome
      ∧ (load_world (ι := ι) writeToWorld st frame w).isSome) := by
  constructor
  · intro hempty
    constructor
    · simp [save_world, hempty, hframe]
    · simp [load_world, hempty]
  · intro hlen
    constructor
    · simp [save_world, hframe, hlen]
    · simp [load_world, hlen]

/-- Witness for `history_nonempty_precondition` at an uninitialized
(empty) history and at a one-slot history. -/
theorem history_nonempty_precondition_witness :
    (((GGRSStage.mk [] 0 60 0 false : GGRSStage Nat).snapshots = []) →
      save_world (fun n => n) (GGRSStage.mk [] 0 60 0 false) 0
          (SimWorld.mk (ι := Nat) none 7) = none
      ∧ load_world (fun s _ => s) (GGRSStage.mk [] 0 60 0 false) 0
          (SimWorld.mk (ι := Nat) none 7) = none)
    ∧ (0 < (GGRSStage.mk [] 0 60 0 false : GGRSStage Nat).snapshots.length →
      (save_world (fun n => n) (GGRSStage.mk [] 0 60 0 false) 0
          (SimWorld.mk (ι := Nat) none 7)).isSome
      ∧ (load_world (fun s _ => s) (GGRSStage.mk [] 0 60 0 false) 0
          (SimWorld.mk (ι := Nat) none 7)).isSome) :=
  history_nonempty_precondition (fun n => n) (fun s _ => s)
    (GGRSStage.mk [] 0 60 0 false) 0 (SimWorld.mk none 7) (by decide)

/-! ## Ring-buffer history bounding (C2) -/

theorem i32_as_usize_natCast (n : Nat) (h : n < 2 ^ 64) :
    i32_as_usize (n : Int) = n := by
  unfold i32_as_usize
  rw [Int.emod_eq_of_lt (Int.natCast_nonneg n) (by exact_mod_cast h)]
  simp

theorem add_mod_ne (F m K : Nat) (hK : 0 < K) (h1 : 0 < m) (h2 : m < K) :
    (F + m) % K ≠ F % K := by
  intro h
  have hm : m % K = m := Nat.mod_eq_of_lt h2
  have hadd : (F + m) % K = (F % K + m) % K := by
    conv_lhs => rw [Nat.add_mod, hm]
  have hFK : F % K < K := Nat.mod_lt _ hK
  rcases Nat.lt_or_ge (F % K + m) K with hlt | hge
  · rw [hadd, Nat.mod_eq_of_lt hlt] at h
    omega
  · have hsub : (F % K + m) % K = (F % K + m - K) % K := Nat.mod_eq_sub_mod hge
    have hlt2 : F % K + m - K < K := by omega
    rw [hadd, hsub, Nat.mod_eq_of_lt hlt2] at h
    omega

/-- Scenario driver for the history-bounding property: for each world
state in turn, `save_world` at the current frame counter and then advance
the counter by one — the Save/Advance pairing `handle_requests` performs
frame after frame. -/
def saveFrames {σ ι υ : Type} (fromWorld : υ → σ) (st : GGRSStage σ) :
    List (SimWorld ι υ) → Option (GGRSStage σ)
  | [] => some st
  | w :: rest =>
    match save_world fromWorld st st.frame w with
    | some st1 => saveFrames fromWorld { st1 with frame := st1.frame + 1 } rest
    | none => none

theorem saveFrames_spec {σ ι υ : Type} (fromWorld : υ → σ) (K : Nat) (hK : 0 < K)
    (worlds : List (SimWorld ι υ)) :
    ∀ (st : GGRSStage σ) (F : Nat),
      st.frame = (F : Int) → st.snapshots.length = K →
      worlds.length ≤ K → F + worlds.length < 2 ^ 63 →
      ∃ st1, saveFrames fromWorld st worlds = some st1
        ∧ st1.frame = ((F + worlds.length : Nat) : Int)
        ∧ st1.snapshots.length = K
        ∧ (∀ j, (hj : j < worlds.length) →
            st1.snapshots[(F + j) % K]? = some (fromWorld (worlds.get ⟨j, hj⟩).state))
        ∧ (∀ p, (∀ j, j < worlds.length → (F + j) % K ≠ p) →
            st1.snapshots[p]? = st.snapshots[p]?) := by
  induction worlds with
  | nil =>
    intro st F hF hlen _ _
    refine ⟨st, rfl, by simpa using hF, hlen, ?_, ?_⟩
    · intro j hj
      exact absurd hj (by simp)
    · intro p _
      rfl
  | cons w rest ih =>
    intro st F hF hlen hle hbound
    have hlc : (w :: rest).length = rest.length + 1 := List.length_cons w rest
    have hpos : 0 < st.snapshots.length := by omega
    have hcast : i32_as_usize st.frame = F := by
      rw [hF, i32_as_usize_natCast F (by omega)]
    have hsave : save_world (ι := ι) fromWorld st st.frame w
        = some { st with
            snapshots := st.snapshots.set (F % K) (fromWorld w.state) } := by
      simp [save_world, hpos, hcast, hlen]
      omega
    have hnext : ({ { st with
          snapshots := st.snapshots.set (F % K) (fromWorld w.state) } with
            frame := ({ st with
              snapshots := st.snapshots.set (F % K) (fromWorld w.state) } :
                GGRSStage σ).frame + 1 } : GGRSStage σ).frame = ((F + 1 : Nat) : Int) := by
      simp [hF]
    obtain ⟨st1, hrun, hframe, hlen1, hget, hpres⟩ :=
      ih { { st with
          snapshots := st.snapshots.set (F % K) (fromWorld w.state) } with
            frame := ({ st with
              snapshots := st.snapshots.set (F % K) (fromWorld w.state) } :
                GGRSStage σ).frame + 1 } (F + 1) hnext
        (by simp [List.length_set, hlen]) (by omega) (by omega)
    refine ⟨st1, ?_, ?_, hlen1, ?_, ?_⟩
    · show saveFrames fromWorld st (w :: rest) = some st1
      rw [saveFrames, hsave]
      exact hrun
    · rw [hframe]
      congr 1
      omega
    · intro j hj
      match j with
      | 0 =>
        have hne : ∀ j', j' < rest.length → (F + 1 + j') % K ≠ F % K := by
          intro j' hj'
          have : F + 1 + j' = F + (1 + j') := by omega
          rw [this]
          exact add_mod_ne F (1 + j') K hK (by omega) (by omega)
        have h0 : st1.snapshots[F % K]?
            = (st.snapshots.set (F % K) (fromWorld w.state))[F % K]? := hpres (F % K) hne
        have hFK : F % K < st.snapshots.length := by
          rw [hlen]
          exact Nat.mod_lt _ hK
        simpa [h0] using List.getElem?_set_eq_of_lt (fromWorld w.state) hFK
      | j' + 1 =>
        have hj' : j' < rest.length := by omega
        have hidx : F + (j' + 1) = F + 1 + j' := by omega
        rw [hidx]
        exact hget j' hj'
    · intro p hp
      have hne : ∀ j', j' < rest.length → (F + 1 + j') % K ≠ p := by
        intro j' hj'
        have : F + 1 + j' = F + (j' + 1) := by omega
        rw [this]
        exact hp (j' + 1) (by omega)
      have h0 : st1.snapshots[p]?
          = (st.snapshots.set (F % K) (fromWorld w.state))[p]? := hpres p hne
      have hne0 : F % K ≠ p := by
        simpa using hp 0 (by omega)
      rw [h0, List.getElem?_set_ne hne0]

/-- If the slot for `frame` holds `s`, `load_world` returns the stage with
the counter set to `frame` and the world with `s` written into it. -/
theorem load_world_of_snapshot_for {σ ι υ : Type} (writeToWorld : σ → υ → υ)
    (st : GGRSStage σ) (frame : Int) (w : SimWorld ι υ) (s : σ)
    (h : snapshot_for st frame = some s) :
    load_world writeToWorld st frame w
      = some ({ st with frame := frame }, { w with state := writeToWorld s w.state }) := by
  unfold snapshot_for at h
  have hpos : 0 < st.snapshots.length := by
    rcases Nat.eq_zero_or_pos st.snapshots.length with h0 | h0
    · rw [List.eq_nil_of_length_eq_zero h0] at h
      simp at h
    · exact h0
  have hidx : i32_as_usize frame % st.snapshots.length < st.snapshots.length :=
    Nat.mod_lt _ hpos
  rw [List.getElem?_eq_getElem hidx] at h
  have heq := Option.some.inj h
  unfold load_world
  rw [dif_pos hpos]
  simp only [List.get_eq_getElem, heq]

/-- C2: with history capacity `K > 0`, saving snapshots for frames
`F, F+1, …, F+K-1` (the `w0 :: rest` world states) and then loading frame
`F` yields exactly the snapshot saved for `F` — the slot is
`F mod K` — and after additionally saving frame `F + K`, loading `F`
yields the snapshot saved for `F + K`: both frames map to slot `F mod K`,
which the later save overwrote. -/
theorem history_bounding {σ ι υ : Type} (fromWorld : υ → σ)
    (writeToWorld : σ → υ → υ) (st : GGRSStage σ) (F K : Nat)
    (w0 wK : SimWorld ι υ) (rest : List (SimWorld ι υ))
    (hF : st.frame = (F : Int)) (hlen : st.snapshots.length = K)
    (hrest : rest.length + 1 = K) (hbound : F + K + 1 < 2 ^ 63) :
    ∃ st1 st2,
      saveFrames fromWorld st (w0 :: rest) = some st1
      ∧ snapshot_for st1 (F : Int) = some (fromWorld w0.state)
      ∧ (∀ w : SimWorld ι υ, load_world writeToWorld st1 (F : Int) w
          = some ({ st1 with frame := (F : Int) },
              { w with state := writeToWorld (fromWorld w0.state) w.state }))
      ∧ save_world (ι := ι) fromWorld st1 ((F + K : Nat) : Int) wK = some st2
      ∧ snapshot_for st2 (F : Int) = some (fromWorld wK.state)
      ∧ (∀ w : SimWorld ι υ, load_world writeToWorld st2 (F : Int) w
          = some ({ st2 with frame := (F : Int) },
              { w with state := writeToWorld (fromWorld wK.state) w.state })) := by
  have hK : 0 < K := by omega
  obtain ⟨st1, hrun, hframe, hlen1, hget, _⟩ :=
    saveFrames_spec fromWorld K hK (w0 :: rest) st F hF hlen (by simp; omega) (by simp; omega)
  have hlc : (w0 :: rest).length = K := by simp [hrest]
  have hslot1 : st1.snapshots[F % K]? = some (fromWorld w0.state) := by
    have := hget 0 (by simp)
    simpa using this
  have hsnap1 : snapshot_for st1 (F : Int) = some (fromWorld w0.state) := by
    unfold snapshot_for
    rw [i32_as_usize_natCast F (by omega), hlen1]
    exact hslot1
  have hframe1 : st1.frame = ((F + K : Nat) : Int) := by
    rw [hframe, hlc]
  have hsave2 : save_world (ι := ι) fromWorld st1 ((F + K : Nat) : Int) wK
      = some { st1 with
          snapshots := st1.snapshots.set (F % K) (fromWorld wK.state) } := by
    have hcast2 : i32_as_usize ((F + K : Nat) : Int) = F + K :=
      i32_as_usize_natCast (F + K) (by omega)
    have hmod : (F + K) % K = F % K := Nat.add_mod_right F K
    have hpos1 : 0 < st1.snapshots.length := by omega
    unfold save_world
    rw [if_pos hframe1, if_pos hpos1, hcast2, hlen1, hmod]
  have hslot2 : ({ st1 with
      snapshots := st1.snapshots.set (F % K) (fromWorld wK.state) } :
        GGRSStage σ).snapshots[F % K]? = some (fromWorld wK.state) := by
    have hFK : F % K < st1.snapshots.length := by
      rw [hlen1]
      exact Nat.mod_lt _ hK
    simpa using List.getElem?_set_eq_of_lt (fromWorld wK.state) hFK
  have hsnap2 : snapshot_for ({ st1 with
      snapshots := st1.snapshots.set (F % K) (fromWorld wK.state) } : GGRSStage σ)
        (F : Int) = some (fromWorld wK.state) := by
    unfold snapshot_for
    rw [i32_as_usize_natCast F (by omega)]
    simpa [List.length_set, hlen1] using hslot2
  refine ⟨st1, _, hrun, hsnap1, ?_, hsave2, hsnap2, ?_⟩
  · intro w
    exact load_world_of_snapshot_for writeToWorld st1 (F : Int) w _ hsnap1
  · intro w
    exact load_world_of_snapshot_for writeToWorld _ (F : Int) w _ hsnap2

/-- Witness for `history_bounding`: capacity 2, frames 0 and 1 saved from
worlds with states 1 and 2, then frame 2 saved from state 3; loading
frame 0 yields state 1's snapshot before the overwrite and state 3's
after. -/
theorem history_bounding_witness :
    ∃ st1 st2,
      saveFrames (fun n => n) (GGRSStage.mk [100, 100] 0 60 0 false)
          [SimWorld.mk (ι := Nat) none 1, SimWorld.mk none 2] = some st1
      ∧ snapshot_for st1 ((0 : Nat) : Int) = some ((fun n => n) (1 : Nat))
      ∧ (∀ w : SimWorld Nat Nat, load_world (fun s _ => s) st1 ((0 : Nat) : Int) w
          = some ({ st1 with frame := ((0 : Nat) : Int) },
              { w with state := (fun s _ => s) ((fun n => n) (1 : Nat)) w.state }))
      ∧ save_world (ι := Nat) (fun n => n) st1 ((0 + 2 : Nat) : Int)
          (SimWorld.mk none 3) = some st2
      ∧ snapshot_for st2 ((0 : Nat) : Int) = some ((fun n => n) (3 : Nat))
      ∧ (∀ w : SimWorld Nat Nat, load_world (fun s _ => s) st2 ((0 : Nat) : Int) w
          = some ({ st2 with frame := ((0 : Nat) : Int) },
              { w with state := (fun s _ => s) ((fun n => n) (3 : Nat)) w.state })) :=
  history_bounding (fun n => n) (fun s _ => s) (GGRSStage.mk [100, 100] 0 60 0 false)
    0 2 (SimWorld.mk none 1) (SimWorld.mk none 3) [SimWorld.mk none 2]
    (by decide) (by decide) (by decide) (by norm_num)

/-! ## Per-variant driving procedures
 (src/ggrs_stage.rs, `run_synctest` / `run_spectator` / `run_p2p`,
 lines 102-254, and `handle_requests`, lines 256-264) -/

/-- The errors `ggrs::GGRSError` the driving procedures distinguish:
`PredictionThreshold` (the transient not-ready condition, matched by its
own arm in `run_p2p` / `run_spectator`) and every other session error
(the catch-all `Err(e)` arm). Both arms only print and skip the tick. -/
inductive GGRSError : Type
  | predictionThreshold
  | other (msg : String)

/-- A `ggrs::GGRSRequest`: `SaveGameState { cell, frame }` (the cell is
filled by `save_world` itself and carries no world data),
`LoadGameState { cell, frame }` (the cell carries the frame of the state
to restore), or `AdvanceFrame { inputs }`. -/
inductive GGRSRequest (ι : Type) : Type
  | saveGameState (frame : Int)
  | loadGameState (frame : Int)
  | advanceFrame (inputs : ι)

/-- The operations the stage owns besides its fields: the snapshot
capture/restore pair (`WorldSnapshot::from_world` /
`WorldSnapshot::write_to_world`, with `WorldSnapshot::default()` for the
initial ring-buffer fill) and the rollback `Schedule`. -/
structure StageOps (σ ι υ : Type) where
  fromWorld : υ → σ
  writeToWorld : σ → υ → υ
  defaultSnapshot : σ
  schedule : SimWorld ι υ → SimWorld ι υ

/-- One arm of the `match request` in `GGRSStage::handle_requests`
(lines 256-264). -/
def handle_request {σ ι υ : Type} (ops : StageOps σ ι υ)
    (acc : GGRSStage σ × SimWorld ι υ) (req : GGRSRequest ι) :
    Option (GGRSStage σ × SimWorld ι υ) :=
  match req with
  | .saveGameState frame =>
    (save_world ops.fromWorld acc.1 frame acc.2).map (fun st' => (st', acc.2))
  | .loadGameState frame =>
    load_world ops.writeToWorld acc.1 frame acc.2
  | .advanceFrame inputs =>
    some (advance_frame ops.schedule acc.1 inputs acc.2)

/-- `GGRSStage::handle_requests`: execute the request list strictly in the
order received. -/
def handle_requests {σ ι υ : Type} (ops : StageOps σ ι υ) (st : GGRSStage σ)
    (w : SimWorld ι υ) (reqs : List (GGRSRequest ι)) :
    Option (GGRSStage σ × SimWorld ι υ) :=
  reqs.foldlM (handle_request ops) (st, w)

/-- The `if self.snapshots.is_empty()` initialization block shared by
`run_synctest` (lines 106-117) and `run_p2p` (lines 192-203): fill the
ring buffer with `max_prediction()` default snapshots. -/
def initSnapshots {σ : Type} (st : GGRSStage σ) (maxPred : Nat) (defSnap : σ) :
    GGRSStage σ :=
  if st.snapshots.isEmpty then
    { st with snapshots := List.replicate maxPred defSnap }
  else st

/-- The observable behaviour of a `ggrs::SyncTestSession` during one tick
of `run_synctest`: its prediction window, whether every
`add_local_input(player_handle, input)` call returns `Ok` (the input
values themselves do not influence the stage), and the result of
`advance_frame()`. -/
structure SyncTestSession (ι : Type) where
  max_prediction : Nat
  num_players : Nat
  add_local_input_ok : Bool
  advance_frame_result : Except GGRSError (List (GGRSRequest ι))

/-- `GGRSStage::run_synctest` (lines 102-158): initialize the ring buffer
if empty, sample one input per player, `add_local_input(...).unwrap()`
(a panic — `none` — when the session rejects an input), then
`advance_frame()`: on `Ok` handle the requests, on any `Err` print and
skip the tick. -/
def run_synctest {σ ι υ : Type} (ops : StageOps σ ι υ) (sess : SyncTestSession ι)
    (st : GGRSStage σ) (w : SimWorld ι υ) :
    Option (GGRSStage σ × SimWorld ι υ) :=
  let st0 := initSnapshots st sess.max_prediction ops.defaultSnapshot
  if sess.add_local_input_ok then
    match sess.advance_frame_result with
    | .ok requests => handle_requests ops st0 w requests
    | .error _ => some (st0, w)
  else none

/-- The observable behaviour of a `ggrs::P2PSession` during one tick of
`run_p2p`: prediction window, local handles, whether
`current_state() == SessionState::Running`, whether every
`add_local_input` call returns `Ok`, the `advance_frame()` result, and
`frames_ahead()`. -/
structure P2PSession (ι : Type) where
  max_prediction : Nat
  local_player_handles : List Nat
  running : Bool
  add_local_input_ok : Bool
  advance_frame_result : Except GGRSError (List (GGRSRequest ι))
  frames_ahead : Int

/-- `GGRSStage::run_p2p` (lines 188-254): initialize the ring buffer if
empty, sample local inputs; if the session is `Running`,
`add_local_input(...).unwrap()` (panic — `none` — on rejection) and call
`advance_frame()` (any `Err`, `PredictionThreshold` included, only prints);
then set `run_slow = frames_ahead() > 0` in every non-panicking path, and
finally handle the collected requests, if any. -/
def run_p2p {σ ι υ : Type} (ops : StageOps σ ι υ) (sess : P2PSession ι)
    (st : GGRSStage σ) (w : SimWorld ι υ) :
    Option (GGRSStage σ × SimWorld ι υ) :=
  let st0 := initSnapshots st sess.max_prediction ops.defaultSnapshot
  let request_vec : Option (Option (List (GGRSRequest ι))) :=
    if sess.running then
      if sess.add_local_input_ok then
        some (match sess.advance_frame_result with
          | .ok requests => some requests
          | .error _ => none)
      else none
    else some none
  match request_vec with
  | none => none
  | some rv =>
    let st1 := { st0 with run_slow := decide (0 < sess.frames_ahead) }
    match rv with
    | some requests => handle_requests ops st1 w requests
    | none => some (st1, w)

/-- The observable behaviour of a `ggrs::SpectatorSession` during one tick
of `run_spectator`: whether `current_state() == SessionState::Running` and
the `advance_frame()` result. -/
structure SpectatorSession (ι : Type) where
  running : Bool
  advance_frame_result : Except GGRSError (List (GGRSRequest ι))

/-- `GGRSStage::run_spectator` (lines 160-186): no ring-buffer
initialization and no inputs; if the session is `Running`, call
`advance_frame()` — `Ok` handles the requests, any `Err`
(`PredictionThreshold` included) only prints and skips the tick. -/
def run_spectator {σ ι υ : Type} (ops : StageOps σ ι υ)
    (sess : SpectatorSession ι) (st : GGRSStage σ) (w : SimWorld ι υ) :
    Option (GGRSStage σ × SimWorld ι υ) :=
  if sess.running then
    match sess.advance_frame_result with
    | .ok requests => handle_requests ops st w requests
    | .error _ => some (st, w)
  else some (st, w)

/-- C8: for each of the three per-tick driving procedures, if the
session's `advance_frame()` call returns any error (the transient
`PredictionThreshold` not-ready condition included), then no Save, Load or
Advance request is executed that tick: the procedure returns without
panicking, and the frame counter, the snapshot history (as it stood at
the `advance_frame` call, i.e. after the empty-history initialization
that precedes the call in `run_synctest` / `run_p2p`) and the simulation
world are exactly unchanged. `run_p2p` only refreshes its `run_slow`
bias flag, which is not part of the claimed state. -/
theorem failed_tick_atomic {σ ι υ : Type} (ops : StageOps σ ι υ)
    (sessST : SyncTestSession ι) (sessP : P2PSession ι)
    (sessSp : SpectatorSession ι) (st : GGRSStage σ) (w : SimWorld ι υ)
    (e1 e2 e3 : GGRSError)
    (h1 : sessST.advance_frame_result = .error e1)
    (h1ok : sessST.add_local_input_ok = true)
    (h2 : sessP.advance_frame_result = .error e2)
    (h2ok : sessP.add_local_input_ok = true)
    (h2run : sessP.running = true)
    (h3 : sessSp.advance_frame_result = .error e3)
    (h3run : sessSp.running = true) :
    run_synctest ops sessST st w
      = some (initSnapshots st sessST.max_prediction ops.defaultSnapshot, w)
    ∧ run_p2p ops sessP st w
      = some ({ initSnapshots st sessP.max_prediction ops.defaultSnapshot with
          run_slow := decide (0 < sessP.frames_ahead) }, w)
    ∧ run_spectator ops sessSp st w = some (st, w) := by
  refine ⟨?_, ?_, ?_⟩
  · simp [run_synctest, h1, h1ok]
  · simp [run_p2p, h2, h2ok, h2run]
  · simp [run_spectator, h3, h3run]

/-- Witness for `failed_tick_atomic`: all three sessions report an error
on a concrete stage with an uninitialized history. -/
theorem failed_tick_atomic_witness :
    run_synctest (StageOps.mk (fun _ => (0 : Nat)) (fun s _ => s) 0 id)
        (SyncTestSession.mk 2 1 true (.error (.other "e")))
        (GGRSStage.mk [] 0 60 0 false) (SimWorld.mk (ι := Nat) none 7)
      = some (initSnapshots (GGRSStage.mk [] 0 60 0 false)
          (SyncTestSession.mk (ι := Nat) 2 1 true (.error (.other "e"))).max_prediction
          (StageOps.mk (fun _ => (0 : Nat)) (fun s _ => s) 0
            (id : SimWorld Nat Nat → SimWorld Nat Nat)).defaultSnapshot,
        SimWorld.mk none 7)
    ∧ run_p2p (StageOps.mk (fun _ => (0 : Nat)) (fun s _ => s) 0 id)
        (P2PSession.mk 2 [0] true true (.error .predictionThreshold) 1)
        (GGRSStage.mk [] 0 60 0 false) (SimWorld.mk (ι := Nat) none 7)
      = some ({ initSnapshots (GGRSStage.mk [] 0 60 0 false)
          (P2PSession.mk (ι := Nat) 2 [0] true true
            (.error .predictionThreshold) 1).max_prediction
          (StageOps.mk (fun _ => (0 : Nat)) (fun s _ => s) 0
            (id : SimWorld Nat Nat → SimWorld Nat Nat)).defaultSnapshot with
          run_slow := decide (0 < (P2PSession.mk (ι := Nat) 2 [0] true true
            (.error .predictionThreshold) 1).frames_ahead) },
        SimWorld.mk none 7)
    ∧ run_spectator (StageOps.mk (fun _ => (0 : Nat)) (fun s _ => s) 0 id)
        (SpectatorSession.mk true (.error .predictionThreshold))
        (GGRSStage.mk [] 0 60 0 false) (SimWorld.mk (ι := Nat) none 7)
      = some (GGRSStage.mk [] 0 60 0 false, SimWorld.mk none 7) :=
  failed_tick_atomic (StageOps.mk (fun _ => (0 : Nat)) (fun s _ => s) 0 id)
    (SyncTestSession.mk 2 1 true (.error (.other "e")))
    (P2PSession.mk 2 [0] true true (.error .predictionThreshold) 1)
    (SpectatorSession.mk true (.error .predictionThreshold))
    (GGRSStage.mk [] 0 60 0 false) (SimWorld.mk none 7)
    (.other "e") .predictionThreshold .predictionThreshold
    rfl rfl rfl rfl rfl rfl rfl

/-- C10: `run_synctest` and `run_p2p` call
`session.add_local_input(...).unwrap()`, so a session that rejects a
local input (for example an invalid participant handle) makes the
procedure panic instead of logging and skipping the tick; accepting every
registered local input is therefore a totality precondition of both
procedures. -/
theorem add_local_input_unwrap_panics {σ ι υ : Type} (ops : StageOps σ ι υ)
    (sessST : SyncTestSession ι) (sessP : P2PSession ι)
    (st : GGRSStage σ) (w : SimWorld ι υ)
    (h1 : sessST.add_local_input_ok = false)
    (h2 : sessP.add_local_input_ok = false)
    (h2run : sessP.running = true) :
    run_synctest ops sessST st w = none
    ∧ run_p2p ops sessP st w = none := by
  refine ⟨?_, ?_⟩
  · simp [run_synctest, h1]
  · simp [run_p2p, h2, h2run]

/-- Witness for `add_local_input_unwrap_panics`: sessions that reject an
input make both procedures panic. -/
theorem add_local_input_unwrap_panics_witness :
    run_synctest (StageOps.mk (fun _ => (0 : Nat)) (fun s _ => s) 0 id)
        (SyncTestSession.mk 2 1 false (.ok []))
        (GGRSStage.mk [] 0 60 0 false) (SimWorld.mk (ι := Nat) none 7) = none
    ∧ run_p2p (StageOps.mk (fun _ => (0 : Nat)) (fun s _ => s) 0 id)
        (P2PSession.mk 2 [0] true false (.ok []) 0)
        (GGRSStage.mk [] 0 60 0 false) (SimWorld.mk (ι := Nat) none 7) = none :=
  add_local_input_unwrap_panics (StageOps.mk (fun _ => (0 : Nat)) (fun s _ => s) 0 id)
    (SyncTestSession.mk 2 1 false (.ok []))
    (P2PSession.mk 2 [0] true false (.ok []) 0)
    (GGRSStage.mk [] 0 60 0 false) (SimWorld.mk none 7)
    rfl rfl rfl

/-! ## Reflect-based component snapshots
 (src/snapshot/component_reflect.rs, `ComponentSnapshotReflectPlugin`) -/

/-- A live rollback-tracked entity as the snapshot systems see it: the
Bevy `Entity` id, the `Rollback` marker (the stable identifier rollback
re-establishes identity through), and the optional component `C`
(`Option<&mut C>` in the load query). `Reflect::clone_value` /
`Reflect::apply` deep-copy a value, so a component's state is its value
`α`. -/
structure TrackedEntity (α : Type) where
  id : Nat
  rollback : Nat
  component : Option α

/-- A `GgrsComponentSnapshot<C, Box<dyn Reflect>>`: the mapping from
rollback marker to the cloned component value, built by
`GgrsComponentSnapshot::new` from the iterator of
`(rollback, clone_value)` pairs. -/
abbrev GgrsComponentSnapshot (α : Type) := List (Nat × α)

/-- `snapshot.get(rollback)`: the stored value for a rollback marker, if
any. -/
def snapshotGet {α : Type} (snap : GgrsComponentSnapshot α) (r : Nat) :
    Option α :=
  (snap.find? (fun p => p.1 == r)).map Prod.snd

/-- The body of `ComponentSnapshotReflectPlugin::save` (lines 58-62):
`query.iter().map(|(&rollback, component)| (rollback,
component.as_reflect().clone_value()))` over the `Query<(&Rollback, &C)>`
— i.e. over every tracked entity that currently has the component. -/
def componentSave {α : Type} (world : List (TrackedEntity α)) :
    GgrsComponentSnapshot α :=
  world.filterMap (fun e => e.component.map (fun c => (e.rollback, c)))

/-- The per-entity `match (component, snapshot)` of
`ComponentSnapshotReflectPlugin::load` (lines 84-101):
`(Some, Some)` → `component.apply(snapshot)` (deep-copy the stored value),
`(Some, None)` → `commands.entity(entity).remove::<C>()`,
`(None, Some)` → `C::from_world` then `apply` then insert (the inserted
component carries the stored value), `(None, None)` → nothing. -/
def loadEntity {α : Type} (snap : GgrsComponentSnapshot α)
    (e : TrackedEntity α) : TrackedEntity α :=
  match e.component, snapshotGet snap e.rollback with
  | some _, some v => { e with component := some v }
  | some _, none => { e with component := none }
  | none, some v => { e with component := some v }
  | none, none => e

/-- Modelled from the spec: the `GgrsComponentSnapshots<C, Box<dyn
Reflect>>` resource is code of this repository that is not under `src/`
(only its callers in component_reflect.rs are). Per the spec's Snapshot
History, it is a frame-indexed store of per-component snapshots:
`snapshots.push(frame, snapshot)` records the snapshot for the frame just
captured, and `snapshots.rollback(frame).get()` retrieves the snapshot
recorded for that frame. -/
structure GgrsComponentSnapshots (α : Type) where
  entries : List (Int × GgrsComponentSnapshot α)

/-- Modelled from the spec: `GgrsComponentSnapshots::push` records a
snapshot for a frame. -/
def GgrsComponentSnapshots.push {α : Type} (s : GgrsComponentSnapshots α)
    (frame : Int) (snap : GgrsComponentSnapshot α) : GgrsComponentSnapshots α :=
  ⟨(frame, snap) :: s.entries⟩

/-- Modelled from the spec: `snapshots.rollback(frame).get()` — the most
recently recorded snapshot for `frame` (an empty snapshot when the frame
was never recorded). -/
def GgrsComponentSnapshots.rollbackGet {α : Type} (s : GgrsComponentSnapshots α)
    (frame : Int) : GgrsComponentSnapshot α :=
  ((s.entries.find? (fun p => p.1 == frame)).map Prod.snd).getD []

/-- `ComponentSnapshotReflectPlugin::save` (lines 53-71): snapshot the
query and push it for the current `RollbackFrameCount`. -/
def ComponentSnapshotReflectPlugin.save {α : Type}
    (snapshots : GgrsComponentSnapshots α) (frame : Int)
    (query : List (TrackedEntity α)) : GgrsComponentSnapshots α :=
  snapshots.push frame (componentSave query)

/-- `ComponentSnapshotReflectPlugin::load` (lines 73-109): fetch the
snapshot for the current `RollbackFrameCount` and apply the per-entity
match to every live tracked entity of the
`Query<(Entity, &Rollback, Option<&mut C>)>`. -/
def ComponentSnapshotReflectPlugin.load {α : Type}
    (snapshots : GgrsComponentSnapshots α) (frame : Int)
    (query : List (TrackedEntity α)) : List (TrackedEntity α) :=
  query.map (loadEntity (snapshots.rollbackGet frame))

theorem rollbackGet_push {α : Type} (s : GgrsComponentSnapshots α)
    (frame : Int) (snap : GgrsComponentSnapshot α) :
    (s.push frame snap).rollbackGet frame = snap := by
  simp [GgrsComponentSnapshots.push, GgrsComponentSnapshots.rollbackGet,
    List.find?]

theorem loadEntity_component {α : Type} (snap : GgrsComponentSnapshot α)
    (e : TrackedEntity α) :
    (loadEntity snap e).component = snapshotGet snap e.rollback := by
  unfold loadEntity
  cases hc : e.component <;> cases hs : snapshotGet snap e.rollback <;>
    simp [hc, hs]

theorem loadEntity_id_rollback {α : Type} (snap : GgrsComponentSnapshot α)
    (e : TrackedEntity α) :
    (loadEntity snap e).id = e.id ∧ (loadEntity snap e).rollback = e.rollback := by
  unfold loadEntity
  cases hc : e.component <;> cases hs : snapshotGet snap e.rollback <;>
    simp [hc, hs]

theorem snapshotGet_not_mem {α : Type} (capture : List (TrackedEntity α))
    (r : Nat) (h : ∀ e ∈ capture, e.rollback ≠ r) :
    snapshotGet (componentSave capture) r = none := by
  induction capture with
  | nil => rfl
  | cons e rest ih =>
    have hr : (e.rollback == r) = false :=
      beq_eq_false_iff_ne.mpr (h e (by simp))
    have ihr := ih (fun e' he' => h e' (List.mem_cons_of_mem e he'))
    cases hc : e.component with
    | none =>
      simpa [componentSave, List.filterMap_cons, hc] using ihr
    | some v =>
      simp only [componentSave, List.filterMap_cons, hc, Option.map_some'] at ihr ⊢
      simp only [snapshotGet, List.find?, hr] at ihr ⊢
      exact ihr

theorem snapshotGet_of_pairwise {α : Type} (capture : List (TrackedEntity α))
    (hdist : capture.Pairwise (fun a b => a.rollback ≠ b.rollback)) :
    ∀ e0 ∈ capture, snapshotGet (componentSave capture) e0.rollback = e0.component := by
  induction capture with
  | nil =>
    intro e0 h0
    simp at h0
  | cons e rest ih =>
    intro e0 h0
    rw [List.pairwise_cons] at hdist
    obtain ⟨hhead, htail⟩ := hdist
    rcases List.mem_cons.mp h0 with rfl | hmem
    · cases hc : e0.component with
      | some v =>
        simp [componentSave, List.filterMap_cons, hc, snapshotGet, List.find?]
      | none =>
        have := snapshotGet_not_mem rest e0.rollback
          (fun e' he' => (hhead e' he').symm)
        simpa [componentSave, List.filterMap_cons, hc] using this
    · have hne : (e.rollback == e0.rollback) = false :=
        beq_eq_false_iff_ne.mpr (hhead e0 hmem)
      have ihr := ih htail e0 hmem
      cases hc : e.component with
      | none =>
        simpa [componentSave, List.filterMap_cons, hc] using ihr
      | some v =>
        simp only [componentSave, List.filterMap_cons, hc, Option.map_some'] at ihr ⊢
        simp only [snapshotGet, List.find?, hne] at ihr ⊢
        exact ihr

/-- C1: round-trip of component snapshotting. Capture with
`ComponentSnapshotReflectPlugin::save` at frame `F` from the capture-time
tracked entities (whose rollback markers are pairwise distinct — the
uniqueness invariant of `Rollback`); then, whatever entities were created
or destroyed in between, run `ComponentSnapshotReflectPlugin::load` for
frame `F` over the now-live tracked entities: every entity keeps its id
and rollback marker, each live tracked entity ends with the component iff
the snapshot holds a value for its rollback marker, that value is exactly
the captured one (value overwritten/inserted when present, component
removed when the capture-time entity had none or the marker was never
captured). -/
theorem component_snapshot_roundtrip {α : Type}
    (snapshots : GgrsComponentSnapshots α) (F : Int)
    (capture later : List (TrackedEntity α))
    (hdist : capture.Pairwise (fun a b => a.rollback ≠ b.rollback)) :
    (ComponentSnapshotReflectPlugin.load
        (ComponentSnapshotReflectPlugin.save snapshots F capture) F later).map
          (fun e => (e.id, e.rollback))
      = later.map (fun e => (e.id, e.rollback))
    ∧ ∀ e ∈ ComponentSnapshotReflectPlugin.load
        (ComponentSnapshotReflectPlugin.save snapshots F capture) F later,
      (e.component.isSome ↔ (snapshotGet (componentSave capture) e.rollback).isSome)
      ∧ (∀ e0 ∈ capture, e0.rollback = e.rollback → e.component = e0.component)
      ∧ ((∀ e0 ∈ capture, e0.rollback ≠ e.rollback) → e.component = none) := by
  have hsnap : (ComponentSnapshotReflectPlugin.save snapshots F capture).rollbackGet F
      = componentSave capture := rollbackGet_push snapshots F (componentSave capture)
  constructor
  · unfold ComponentSnapshotReflectPlugin.load
    rw [List.map_map]
    apply List.map_congr_left
    intro e _
    obtain ⟨hid, hrb⟩ := loadEntity_id_rollback
      ((ComponentSnapshotReflectPlugin.save snapshots F capture).rollbackGet F) e
    simp [hid, hrb]
  · intro e he
    unfold ComponentSnapshotReflectPlugin.load at he
    obtain ⟨e', _, rfl⟩ := List.mem_map.mp he
    obtain ⟨hid, hrb⟩ := loadEntity_id_rollback
      ((ComponentSnapshotReflectPlugin.save snapshots F capture).rollbackGet F) e'
    have hcomp : (loadEntity
        ((ComponentSnapshotReflectPlugin.save snapshots F capture).rollbackGet F) e').component
        = snapshotGet (componentSave capture)
            (loadEntity
              ((ComponentSnapshotReflectPlugin.save snapshots F capture).rollbackGet F)
                e').rollback := by
      rw [loadEntity_component, hrb, hsnap]
    refine ⟨by rw [hcomp], ?_, ?_⟩
    · intro e0 h0 hr
      rw [hcomp, ← hr]
      exact snapshotGet_of_pairwise capture hdist e0 h0
    · intro hnone
      rw [hcomp]
      exact snapshotGet_not_mem capture _ (fun e0 h0 => hnone e0 h0)

/-- Witness for `component_snapshot_roundtrip`: two captured entities
(rollback markers 10 with value 5, 11 without component), loaded into a
world where entity 10 changed its value and a fresh entity with marker 12
appeared. -/
theorem component_snapshot_roundtrip_witness :
    (ComponentSnapshotReflectPlugin.load
        (ComponentSnapshotReflectPlugin.save (GgrsComponentSnapshots.mk []) 0
          [TrackedEntity.mk 0 10 (some (5 : Nat)), TrackedEntity.mk 1 11 none]) 0
        [TrackedEntity.mk 0 10 (some 99), TrackedEntity.mk 2 12 (some 4)]).map
          (fun e => (e.id, e.rollback))
      = [TrackedEntity.mk 0 10 (some (99 : Nat)),
          TrackedEntity.mk 2 12 (some 4)].map (fun e => (e.id, e.rollback))
    ∧ ∀ e ∈ ComponentSnapshotReflectPlugin.load
        (ComponentSnapshotReflectPlugin.save (GgrsComponentSnapshots.mk []) 0
          [TrackedEntity.mk 0 10 (some (5 : Nat)), TrackedEntity.mk 1 11 none]) 0
        [TrackedEntity.mk 0 10 (some 99), TrackedEntity.mk 2 12 (some 4)],
      (e.component.isSome ↔ (snapshotGet (componentSave
          [TrackedEntity.mk 0 10 (some (5 : Nat)), TrackedEntity.mk 1 11 none])
            e.rollback).isSome)
      ∧ (∀ e0 ∈ [TrackedEntity.mk 0 10 (some (5 : Nat)), TrackedEntity.mk 1 11 none],
          e0.rollback = e.rollback → e.component = e0.component)
      ∧ ((∀ e0 ∈ [TrackedEntity.mk 0 10 (some (5 : Nat)), TrackedEntity.mk 1 11 none],
          e0.rollback ≠ e.rollback) → e.component = none) :=
  component_snapshot_roundtrip (GgrsComponentSnapshots.mk []) 0
    [TrackedEntity.mk 0 10 (some 5), TrackedEntity.mk 1 11 none]
    [TrackedEntity.mk 0 10 (some 99), TrackedEntity.mk 2 12 (some 4)]
    (by simp [List.pairwise_cons])

end BevyGgrs
